import Mathlib

/-!
Shallow embedding of `deepgaze/color_classification.py` — the class
`HistogramColorClassifier` — and verification of its specification.

The class is an orchestration layer over external cv2/numpy primitives
(`cv2.cvtColor`, `cv2.calcHist`, `cv2.normalize`, `cv2.compareHist`,
`np.divide`, `np.sum`).  The external primitives are parameters of the
embedding (a `CVLib` record and a `compareHist` function argument); the
methods of the class are translated line by line from the source.
Histogram bin values are idealised as rationals, comparison scores live in a
caller-chosen numeric type (the spec-modelled `cv2.compareHist` scores in ℝ,
since the correlation metric divides by a square root).
-/

/-- Comparison flag handed to the external `cv2.compareHist`
(`cv2.cv.CV_COMP_INTERSECT` at line 85, `cv2.cv.CV_COMP_CORREL` at line 87). -/
inductive CompFlag
  | intersect
  | correl
deriving DecidableEq, Repr

/-- State of the Python class `HistogramColorClassifier`: the four
configuration fields set in `__init__` (lines 56-59) and the internal
`model_list` (line 60) of flattened model histograms. -/
structure HistogramColorClassifier where
  channels : List ℕ
  hist_size : List ℕ
  hist_range : List ℕ
  hist_type : String
  model_list : List (List ℚ)
deriving Repr

/-- External collaborator: the cv2 primitives used by the image-to-histogram
pipeline (`cv2.cvtColor` with the two conversion codes, `cv2.calcHist`,
`cv2.normalize`, `.flatten()`).  The class only orchestrates these, so they
are parameters of the embedding. -/
structure CVLib (Image RawHist : Type) where
  cvtColorBGR2HSV : Image → Image
  cvtColorBGR2GRAY : Image → Image
  calcHist : Image → List ℕ → List ℕ → List ℕ → RawHist
  normalize : RawHist → RawHist
  flatten : RawHist → List ℚ

/-- `addModelHistogram` (lines 62-73): convert the frame per `hist_type`
(`HSV` / `GRAY`, otherwise no conversion), compute its histogram over
`channels`/`hist_size`/`hist_range`, normalize and flatten it, and append the
result to `model_list`.  The `index` parameter is accepted but never read
(its docstring says "[not implemented]"). -/
def addModelHistogram {Image RawHist : Type} (lib : CVLib Image RawHist)
    (self : HistogramColorClassifier) (model_frame : Image) (index : ℤ) :
    HistogramColorClassifier :=
  let model_frame :=
    if self.hist_type = "HSV" then lib.cvtColorBGR2HSV model_frame
    else if self.hist_type = "GRAY" then lib.cvtColorBGR2GRAY model_frame
    else model_frame
  let hist := lib.calcHist model_frame self.channels self.hist_size self.hist_range
  let hist := lib.flatten (lib.normalize hist)
  { self with model_list := self.model_list ++ [hist] }

/-- `returnHistogramComparison` (lines 75-90): dispatch on the method string,
calling the external `cv2.compareHist` with the matching flag; any other
string raises `ValueError` with the message of line 89, which names the
offending value. -/
def returnHistogramComparison {S : Type} (compareHist : List ℚ → List ℚ → CompFlag → S)
    (hist_1 hist_2 : List ℚ) (method : String) : Except String S :=
  if method = "intersection" then
    Except.ok (compareHist hist_1 hist_2 CompFlag.intersect)
  else if method = "correlation" then
    Except.ok (compareHist hist_1 hist_2 CompFlag.correl)
  else
    Except.error ("[DEEPGAZE] color_classification.py: the method specified " ++ method ++ " is not supported.")

/-- The for-loop of `returnHistogramComparisonArray` (lines 106-109): one
comparison value per stored model histogram, in storage order; an exception
raised by `returnHistogramComparison` inside the loop aborts the whole call. -/
def comparisonLoop {S : Type} (compareHist : List ℚ → List ℚ → CompFlag → S)
    (image_hist : List ℚ) (method : String) :
    List (List ℚ) → Except String (List S)
  | [] => Except.ok []
  | model_hist :: rest =>
    match returnHistogramComparison compareHist image_hist model_hist method with
    | Except.error e => Except.error e
    | Except.ok v =>
      match comparisonLoop compareHist image_hist method rest with
      | Except.error e => Except.error e
      | Except.ok vs => Except.ok (v :: vs)

/-- The query-side image-to-histogram pipeline of
`returnHistogramComparisonArray` (lines 101-105): color conversion per
`hist_type`, then `cv2.calcHist`, `cv2.normalize`, `.flatten()`. -/
def imagePipelineHist {Image RawHist : Type} (lib : CVLib Image RawHist)
    (self : HistogramColorClassifier) (image : Image) : List ℚ :=
  let image :=
    if self.hist_type = "HSV" then lib.cvtColorBGR2HSV image
    else if self.hist_type = "GRAY" then lib.cvtColorBGR2GRAY image
    else image
  let image_hist := lib.calcHist image self.channels self.hist_size self.hist_range
  lib.flatten (lib.normalize image_hist)

/-- `returnHistogramComparisonArray` (lines 92-110): extract the query-image
histogram through the same pipeline as `addModelHistogram`, then compare it
against every stored model histogram in order. -/
def returnHistogramComparisonArray {Image RawHist S : Type} (lib : CVLib Image RawHist)
    (compareHist : List ℚ → List ℚ → CompFlag → S)
    (self : HistogramColorClassifier) (image : Image) (method : String) :
    Except String (List S) :=
  let image :=
    if self.hist_type = "HSV" then lib.cvtColorBGR2HSV image
    else if self.hist_type = "GRAY" then lib.cvtColorBGR2GRAY image
    else image
  let image_hist := lib.calcHist image self.channels self.hist_size self.hist_range
  let image_hist := lib.flatten (lib.normalize image_hist)
  comparisonLoop compareHist image_hist method self.model_list

/-- `returnHistogramComparisonProbability` (lines 112-125):
`np.divide(comparison_array, np.sum(comparison_array))`, elementwise.
(Division by zero yields 0 in a Lean `DivisionRing` where IEEE floats give
NaN or inf; the only zero-sum case any claim relies on is the empty array,
where no element is divided in either semantics.) -/
def returnHistogramComparisonProbability {Image RawHist S : Type} [DivisionRing S]
    (lib : CVLib Image RawHist) (compareHist : List ℚ → List ℚ → CompFlag → S)
    (self : HistogramColorClassifier) (image : Image) (method : String) :
    Except String (List S) :=
  match returnHistogramComparisonArray lib compareHist self image method with
  | Except.error e => Except.error e
  | Except.ok comparison_array =>
    Except.ok (comparison_array.map (fun x => x / comparison_array.sum))

/-- `returnBestMatchIndex` (lines 127-136).  Its body (line 135) calls
`self.returnComparisonArray(image, method=method)`, but no attribute of that
name exists on the class — the defined method is
`returnHistogramComparisonArray` — so Python raises `AttributeError` at the
attribute lookup on every call, before `np.argmax` could run. -/
def returnBestMatchIndex {Image RawHist S : Type} (lib : CVLib Image RawHist)
    (compareHist : List ℚ → List ℚ → CompFlag → S)
    (self : HistogramColorClassifier) (image : Image) (method : String) :
    Except String ℕ :=
  Except.error "AttributeError: HistogramColorClassifier instance has no attribute returnComparisonArray"

/-- Modelled from the spec: the external `cv2.compareHist` with
`CV_COMP_INTERSECT` — "sum over bins of min(hist1[i], hist2[i])" (GLOSSARY:
"similarity metric summing the elementwise minimum of two histograms"). -/
def histIntersection (h1 h2 : List ℚ) : ℚ :=
  (List.zipWith min h1 h2).sum

/-- Arithmetic mean of a list of rationals, used by the Pearson correlation
metric. -/
def listMean (l : List ℚ) : ℚ := l.sum / l.length

/-- Sum of products of deviations from the respective means — the numerator
of the Pearson correlation coefficient (and, on a pair of equal lists, the
factors of its denominator). -/
def devProdSum (h1 h2 : List ℚ) : ℚ :=
  (List.zipWith (fun a b => (a - listMean h1) * (b - listMean h2)) h1 h2).sum

/-- Modelled from the spec: the external `cv2.compareHist` with
`CV_COMP_CORREL` — "Pearson-style correlation coefficient between the two
vectors". -/
noncomputable def histCorrelation (h1 h2 : List ℚ) : ℝ :=
  (devProdSum h1 h2 : ℝ) / Real.sqrt ((devProdSum h1 h1 : ℝ) * (devProdSum h2 h2 : ℝ))

/-- Modelled from the spec: the external `cv2.compareHist`, dispatching on the
comparison flag. -/
noncomputable def cv2CompareHist (h1 h2 : List ℚ) : CompFlag → ℝ
  | CompFlag.intersect => (histIntersection h1 h2 : ℝ)
  | CompFlag.correl => histCorrelation h1 h2

/-- A concrete, computable instantiation of the external library, for
evaluating the embedding at concrete inputs: images are naturals and
`calcHist` yields the one-bin histogram `[image]`. -/
def libW : CVLib ℕ (List ℚ) :=
  { cvtColorBGR2HSV := id,
    cvtColorBGR2GRAY := id,
    calcHist := fun image _ _ _ => [(image : ℚ)],
    normalize := id,
    flatten := id }

/-- A concrete, computable comparison function (histogram intersection under
both flags), for evaluating the embedding at concrete inputs. -/
def cmpW : List ℚ → List ℚ → CompFlag → ℚ :=
  fun h1 h2 _ => histIntersection h1 h2

/-- A concrete classifier state with the default configuration and one stored
model histogram. -/
def stW : HistogramColorClassifier :=
  { channels := [0, 1, 2],
    hist_size := [10, 10, 10],
    hist_range := [0, 256, 0, 256, 0, 256],
    hist_type := "BGR",
    model_list := [[(0 : ℚ)]] }

/-- A concrete classifier state with the default configuration and an empty
model store. -/
def stE : HistogramColorClassifier :=
  { channels := [0, 1, 2],
    hist_size := [10, 10, 10],
    hist_range := [0, 256, 0, 256, 0, 256],
    hist_type := "BGR",
    model_list := [] }

/-- A concrete classifier state storing the two model histograms `[0, 1]` and
`[1, 0]`. -/
def stC : HistogramColorClassifier :=
  { channels := [0, 1, 2],
    hist_size := [10, 10, 10],
    hist_range := [0, 256, 0, 256, 0, 256],
    hist_type := "BGR",
    model_list := [[(0 : ℚ), 1], [(1 : ℚ), 0]] }

/-- External-library instantiation whose pipeline yields the query histogram
`[0, 1]` for every image. -/
def libC : CVLib ℕ (List ℚ) :=
  { cvtColorBGR2HSV := id,
    cvtColorBGR2GRAY := id,
    calcHist := fun _ _ _ _ => [(0 : ℚ), 1],
    normalize := id,
    flatten := id }

theorem comparisonLoop_ok {S : Type} (compareHist : List ℚ → List ℚ → CompFlag → S)
    (image_hist : List ℚ) (method : String) (f : List ℚ → S)
    (hf : ∀ mh, returnHistogramComparison compareHist image_hist mh method = Except.ok (f mh)) :
    ∀ l : List (List ℚ), comparisonLoop compareHist image_hist method l = Except.ok (l.map f)
  | [] => rfl
  | mh :: rest => by
    simp only [comparisonLoop, hf mh,
      comparisonLoop_ok compareHist image_hist method f hf rest, List.map_cons]

theorem comparisonArray_ok {Image RawHist S : Type} (lib : CVLib Image RawHist)
    (compareHist : List ℚ → List ℚ → CompFlag → S)
    (self : HistogramColorClassifier) (image : Image) (method : String)
    (hm : method = "intersection" ∨ method = "correlation") :
    ∃ f : List ℚ → S,
      (∀ mh, returnHistogramComparison compareHist (imagePipelineHist lib self image) mh method =
        Except.ok (f mh)) ∧
      returnHistogramComparisonArray lib compareHist self image method =
        Except.ok (self.model_list.map f) := by
  rcases hm with hm | hm
  · subst hm
    refine ⟨fun mh => compareHist (imagePipelineHist lib self image) mh CompFlag.intersect,
      fun mh => by simp [returnHistogramComparison], ?_⟩
    exact comparisonLoop_ok compareHist (imagePipelineHist lib self image) _ _
      (fun mh => by simp [returnHistogramComparison]) self.model_list
  · subst hm
    refine ⟨fun mh => compareHist (imagePipelineHist lib self image) mh CompFlag.correl,
      fun mh => by simp [returnHistogramComparison], ?_⟩
    exact comparisonLoop_ok compareHist (imagePipelineHist lib self image) _ _
      (fun mh => by simp [returnHistogramComparison]) self.model_list

theorem sum_map_div {S : Type} [DivisionRing S] (c : S) :
    ∀ l : List S, (l.map (fun x => x / c)).sum = l.sum / c
  | [] => by simp
  | x :: rest => by
    simp only [List.map_cons, List.sum_cons, sum_map_div c rest, add_div]

/-- C5: `addModelHistogram` stores exactly the histogram produced by the
query-side pipeline (`imagePipelineHist`, lines 101-105) of
`returnHistogramComparisonArray`, and `returnHistogramComparisonArray`
compares that same pipeline output against the stored models: the model-side
pipeline (lines 69-72) and the query-side pipeline are equal as functions of
the image. -/
theorem pipelines_agree {Image RawHist S : Type} (lib : CVLib Image RawHist)
    (compareHist : List ℚ → List ℚ → CompFlag → S) (self : HistogramColorClassifier)
    (image : Image) (index : ℤ) (method : String) :
    (addModelHistogram lib self image index).model_list =
      self.model_list ++ [imagePipelineHist lib self image] ∧
    returnHistogramComparisonArray lib compareHist self image method =
      comparisonLoop compareHist (imagePipelineHist lib self image) method self.model_list :=
  ⟨rfl, rfl⟩

/-- C6: `addModelHistogram` appends exactly one histogram at the end of
`model_list` — the length grows by one, every previously stored histogram
keeps its position — and the four configuration fields are unchanged. -/
theorem addModelHistogram_frame {Image RawHist : Type} (lib : CVLib Image RawHist)
    (self : HistogramColorClassifier) (model_frame : Image) (index : ℤ) :
    (addModelHistogram lib self model_frame index).model_list.length =
      self.model_list.length + 1 ∧
    (addModelHistogram lib self model_frame index).model_list.take self.model_list.length =
      self.model_list ∧
    (∃ h, (addModelHistogram lib self model_frame index).model_list = self.model_list ++ [h]) ∧
    (addModelHistogram lib self model_frame index).channels = self.channels ∧
    (addModelHistogram lib self model_frame index).hist_size = self.hist_size ∧
    (addModelHistogram lib self model_frame index).hist_range = self.hist_range ∧
    (addModelHistogram lib self model_frame index).hist_type = self.hist_type := by
  refine ⟨by simp [addModelHistogram], ?_, ⟨_, rfl⟩, rfl, rfl, rfl, rfl⟩
  simp [addModelHistogram, List.take_left]

/-- C7: the `index` parameter of `addModelHistogram` is never read: any two
index values, applied to the same state and frame, produce identical
resulting states. -/
theorem addModelHistogram_index_irrelevant {Image RawHist : Type} (lib : CVLib Image RawHist)
    (self : HistogramColorClassifier) (model_frame : Image) (i j : ℤ) :
    addModelHistogram lib self model_frame i = addModelHistogram lib self model_frame j :=
  rfl

/-- C2: `returnHistogramComparison` succeeds exactly on the method strings
"intersection" and "correlation"; on any other string it raises the
`ValueError` of line 89, whose message contains the offending value; and every
error message it ever produces contains the method string as a substring. -/
theorem returnHistogramComparison_method_errors {S : Type}
    (compareHist : List ℚ → List ℚ → CompFlag → S) (h1 h2 : List ℚ) (method : String) :
    ((method = "intersection" ∨ method = "correlation") →
      ∃ v, returnHistogramComparison compareHist h1 h2 method = Except.ok v) ∧
    (¬(method = "intersection" ∨ method = "correlation") →
      returnHistogramComparison compareHist h1 h2 method =
        Except.error ("[DEEPGAZE] color_classification.py: the method specified " ++ method ++ " is not supported.")) ∧
    (∀ e, returnHistogramComparison compareHist h1 h2 method = Except.error e →
      ∃ p q, e = p ++ method ++ q) := by
  by_cases hi : method = "intersection"
  · subst hi
    exact ⟨fun _ => ⟨_, rfl⟩, fun hn => absurd (Or.inl rfl) hn, fun e he => by
      simp [returnHistogramComparison] at he⟩
  · by_cases hc : method = "correlation"
    · subst hc
      exact ⟨fun _ => ⟨compareHist h1 h2 CompFlag.correl, by simp [returnHistogramComparison]⟩,
        fun hn => absurd (Or.inr rfl) hn, fun e he => by
          simp [returnHistogramComparison] at he⟩
    · have hrun : returnHistogramComparison compareHist h1 h2 method =
        Except.error ("[DEEPGAZE] color_classification.py: the method specified " ++ method ++ " is not supported.") := by
        simp [returnHistogramComparison, hi, hc]
      refine ⟨fun hor => absurd hor (by simp [hi, hc]), fun _ => hrun, fun e he => ?_⟩
      rw [hrun] at he
      exact ⟨"[DEEPGAZE] color_classification.py: the method specified ",
        " is not supported.", by injection he with h; rw [h]⟩

/-- C2 witness: at `method = "bogus"` the error is raised and its message is
the line-89 message, which contains "bogus". -/
theorem returnHistogramComparison_method_errors_witness :
    ¬("bogus" = "intersection" ∨ "bogus" = "correlation") ∧
    returnHistogramComparison cmpW [] [] "bogus" =
      Except.error ("[DEEPGAZE] color_classification.py: the method specified " ++ "bogus" ++ " is not supported.") :=
  ⟨by decide, (returnHistogramComparison_method_errors cmpW [] [] "bogus").2.1 (by decide)⟩

/-- C3: for a supported method, `returnHistogramComparisonArray` returns `ok`
of an array whose length equals the number of stored models and whose entries,
in registration order, are the comparisons of the query-image histogram with
each stored model histogram. -/
theorem returnHistogramComparisonArray_spec {Image RawHist S : Type}
    (lib : CVLib Image RawHist) (compareHist : List ℚ → List ℚ → CompFlag → S)
    (self : HistogramColorClassifier) (image : Image) (method : String)
    (hm : method = "intersection" ∨ method = "correlation") :
    ∃ f : List ℚ → S,
      (∀ mh, returnHistogramComparison compareHist (imagePipelineHist lib self image) mh method =
        Except.ok (f mh)) ∧
      returnHistogramComparisonArray lib compareHist self image method =
        Except.ok (self.model_list.map f) ∧
      (self.model_list.map f).length = self.model_list.length := by
  obtain ⟨f, hf, harr⟩ := comparisonArray_ok lib compareHist self image method hm
  exact ⟨f, hf, harr, List.length_map self.model_list f⟩

/-- C3 witness: at the one-model state `stW`, query image 0 and method
"intersection", the comparison array exists as described. -/
theorem returnHistogramComparisonArray_spec_witness :
    ("intersection" = "intersection" ∨ "intersection" = "correlation") ∧
    (∃ f : List ℚ → ℚ,
      (∀ mh, returnHistogramComparison cmpW (imagePipelineHist libW stW 0) mh "intersection" =
        Except.ok (f mh)) ∧
      returnHistogramComparisonArray libW cmpW stW 0 "intersection" =
        Except.ok (stW.model_list.map f) ∧
      (stW.model_list.map f).length = stW.model_list.length) :=
  ⟨Or.inl rfl,
    returnHistogramComparisonArray_spec libW cmpW stW 0 "intersection" (Or.inl rfl)⟩

/-- C4 (amended): for a supported method the returned distribution is the
comparison array divided elementwise by its sum; it always has the same
length as the comparison array, and when the SUM of the scores is nonzero its
elements sum to 1. -/
theorem returnHistogramComparisonProbability_spec {Image RawHist S : Type} [DivisionRing S]
    (lib : CVLib Image RawHist) (compareHist : List ℚ → List ℚ → CompFlag → S)
    (self : HistogramColorClassifier) (image : Image) (method : String)
    (hm : method = "intersection" ∨ method = "correlation") :
    ∃ scores : List S,
      returnHistogramComparisonArray lib compareHist self image method = Except.ok scores ∧
      returnHistogramComparisonProbability lib compareHist self image method =
        Except.ok (scores.map (fun x => x / scores.sum)) ∧
      (scores.map (fun x => x / scores.sum)).length = scores.length ∧
      (scores.sum ≠ 0 → (scores.map (fun x => x / scores.sum)).sum = 1) := by
  obtain ⟨f, _, harr⟩ := comparisonArray_ok lib compareHist self image method hm
  refine ⟨self.model_list.map f, harr, ?_, List.length_map _ _, fun hz => ?_⟩
  · simp [returnHistogramComparisonProbability, harr]
  · rw [sum_map_div, div_self hz]

/-- C4 (amended) witness: at the one-model state `stW`, query image 0 and
method "intersection" with an all-zero score array, the distribution is still
the elementwise quotient (the sum-nonzero implication holds vacuously). -/
theorem returnHistogramComparisonProbability_spec_witness :
    ("intersection" = "intersection" ∨ "intersection" = "correlation") ∧
    (∃ scores : List ℚ,
      returnHistogramComparisonArray libW cmpW stW 0 "intersection" = Except.ok scores ∧
      returnHistogramComparisonProbability libW cmpW stW 0 "intersection" =
        Except.ok (scores.map (fun x => x / scores.sum)) ∧
      (scores.map (fun x => x / scores.sum)).length = scores.length ∧
      (scores.sum ≠ 0 → (scores.map (fun x => x / scores.sum)).sum = 1)) :=
  ⟨Or.inl rfl,
    returnHistogramComparisonProbability_spec libW cmpW stW 0 "intersection" (Or.inl rfl)⟩

/-- C10: with an empty model store, both the comparison array and the
probability distribution are `ok []` for any supported method — no error is
raised; the comparison array is empty, its sum is zero, and the elementwise
division of the empty array yields the empty array. -/
theorem returnHistogramComparisonProbability_empty_store {Image RawHist S : Type}
    [DivisionRing S] (lib : CVLib Image RawHist)
    (compareHist : List ℚ → List ℚ → CompFlag → S)
    (self : HistogramColorClassifier) (image : Image) (method : String)
    (hempty : self.model_list = [])
    (hm : method = "intersection" ∨ method = "correlation") :
    returnHistogramComparisonArray lib compareHist self image method =
      Except.ok ([] : List S) ∧
    returnHistogramComparisonProbability lib compareHist self image method =
      Except.ok ([] : List S) := by
  have h1 : returnHistogramComparisonArray lib compareHist self image method =
      Except.ok ([] : List S) := by
    show comparisonLoop compareHist (imagePipelineHist lib self image) method self.model_list =
      Except.ok ([] : List S)
    rw [hempty]
    rfl
  exact ⟨h1, by simp [returnHistogramComparisonProbability, h1]⟩

/-- C10 witness: at the empty-store state `stE` with method "intersection",
both calls return `ok []`. -/
theorem returnHistogramComparisonProbability_empty_store_witness :
    stE.model_list = [] ∧
    ("intersection" = "intersection" ∨ "intersection" = "correlation") ∧
    returnHistogramComparisonArray libW cmpW stE 0 "intersection" = Except.ok ([] : List ℚ) ∧
    returnHistogramComparisonProbability libW cmpW stE 0 "intersection" =
      Except.ok ([] : List ℚ) :=
  ⟨rfl, Or.inl rfl,
    returnHistogramComparisonProbability_empty_store libW cmpW stE 0 "intersection" rfl
      (Or.inl rfl)⟩

theorem histIntersection_comm (h1 h2 : List ℚ) :
    histIntersection h1 h2 = histIntersection h2 h1 := by
  unfold histIntersection
  rw [List.zipWith_comm_of_comm min min_comm]

theorem devProdSum_comm (h1 h2 : List ℚ) : devProdSum h1 h2 = devProdSum h2 h1 := by
  unfold devProdSum
  rw [List.zipWith_comm]
  have hfun : (fun b a => (a - listMean h1) * (b - listMean h2)) =
      (fun a b : ℚ => (a - listMean h2) * (b - listMean h1)) := by
    funext b a
    ring
  rw [hfun]

theorem histCorrelation_comm (h1 h2 : List ℚ) :
    histCorrelation h1 h2 = histCorrelation h2 h1 := by
  unfold histCorrelation
  rw [devProdSum_comm h1 h2, mul_comm]

/-- C8: over the spec-modelled `cv2.compareHist`, `returnHistogramComparison`
is symmetric in its two histogram arguments for equal-length histograms and
either supported method: the intersection sums elementwise minima and the
Pearson correlation is symmetric in its two vectors. -/
theorem returnHistogramComparison_symm (h1 h2 : List ℚ) (method : String)
    (hm : method = "intersection" ∨ method = "correlation")
    (hl : h1.length = h2.length) :
    returnHistogramComparison cv2CompareHist h1 h2 method =
      returnHistogramComparison cv2CompareHist h2 h1 method := by
  rcases hm with hm | hm <;> subst hm <;>
    simp [returnHistogramComparison, cv2CompareHist, histIntersection_comm h1 h2,
      histCorrelation_comm h1 h2]

/-- C8 witness: symmetry at the histograms `[1/2, 1/2]` and `[1/3, 2/3]` under
"intersection". -/
theorem returnHistogramComparison_symm_witness :
    ("intersection" = "intersection" ∨ "intersection" = "correlation") ∧
    ([(1 : ℚ)/2, 1/2].length = [(1 : ℚ)/3, 2/3].length) ∧
    returnHistogramComparison cv2CompareHist [(1 : ℚ)/2, 1/2] [(1 : ℚ)/3, 2/3] "intersection" =
      returnHistogramComparison cv2CompareHist [(1 : ℚ)/3, 2/3] [(1 : ℚ)/2, 1/2] "intersection" :=
  ⟨Or.inl rfl, rfl,
    returnHistogramComparison_symm [(1 : ℚ)/2, 1/2] [(1 : ℚ)/3, 2/3] "intersection"
      (Or.inl rfl) rfl⟩

/-- C9: a histogram whose entries sum to 1 compared with itself under
"intersection" yields exactly 1: the metric sums min(h[i], h[i]) = h[i] over
all bins. -/
theorem intersection_self_normalized (h : List ℚ) (hsum : h.sum = 1) :
    returnHistogramComparison cv2CompareHist h h "intersection" = Except.ok (1 : ℝ) := by
  have hz : List.zipWith min h h = h := by simp [List.zipWith_same, min_self]
  simp [returnHistogramComparison, cv2CompareHist, histIntersection, hz, hsum]

/-- C9 witness: the normalized one-bin histogram `[1]` self-compares to 1. -/
theorem intersection_self_normalized_witness :
    ([(1 : ℚ)].sum = 1) ∧
    returnHistogramComparison cv2CompareHist [(1 : ℚ)] [(1 : ℚ)] "intersection" =
      Except.ok (1 : ℝ) :=
  ⟨by simp, intersection_self_normalized [(1 : ℚ)] (by simp)⟩

/-- C1: the claim fails in the code.  `returnBestMatchIndex` (line 135) calls
`self.returnComparisonArray`, an attribute the class does not define (the
defined method is `returnHistogramComparisonArray`), so instead of returning
the index of the maximum of the comparison array it raises `AttributeError`
on every input — while, as the second conjunct shows at a one-model state,
the comparison array it was meant to take the argmax of is available. -/
theorem returnBestMatchIndex_raises :
    (∀ (Image RawHist S : Type) (lib : CVLib Image RawHist)
      (compareHist : List ℚ → List ℚ → CompFlag → S) (self : HistogramColorClassifier)
      (image : Image) (method : String),
      returnBestMatchIndex lib compareHist self image method =
        Except.error "AttributeError: HistogramColorClassifier instance has no attribute returnComparisonArray") ∧
    returnHistogramComparisonArray libW cmpW stW 0 "intersection" = Except.ok [(0 : ℚ)] :=
  ⟨fun _ _ _ _ _ _ _ _ => rfl, by
    simp [returnHistogramComparisonArray, libW, cmpW, stW, comparisonLoop,
      returnHistogramComparison, histIntersection]⟩

/-- C4 counterexample: with the spec-modelled `cv2.compareHist`, querying the
state `stC` (models `[0,1]` and `[1,0]`) with an image whose histogram is
`[0,1]` under "correlation" yields the scores `[1, -1]`: at least one score is
nonzero, yet the sum of the scores is 0 and the returned distribution `[0, 0]`
does not sum to 1 — refuting the claim that a nonzero score suffices for the
distribution to sum to 1. -/
theorem probability_nonzero_score_counterexample :
    returnHistogramComparisonArray libC cv2CompareHist stC 0 "correlation" =
      Except.ok [(1 : ℝ), -1] ∧
    (1 : ℝ) ≠ 0 ∧
    returnHistogramComparisonProbability libC cv2CompareHist stC 0 "correlation" =
      Except.ok [(0 : ℝ), 0] ∧
    ¬([(0 : ℝ), 0].sum = 1) := by
  have hA : histCorrelation [(0 : ℚ), 1] [(0 : ℚ), 1] = 1 := by
    have hd : devProdSum [(0 : ℚ), 1] [(0 : ℚ), 1] = 1/2 := by
      norm_num [devProdSum, listMean, List.zipWith]
    rw [histCorrelation, hd]
    push_cast
    rw [Real.sqrt_mul_self (by norm_num : (0 : ℝ) ≤ 1/2)]
    norm_num
  have hB : histCorrelation [(0 : ℚ), 1] [(1 : ℚ), 0] = -1 := by
    have hd : devProdSum [(0 : ℚ), 1] [(1 : ℚ), 0] = -(1/2) := by
      norm_num [devProdSum, listMean, List.zipWith]
    have hd1 : devProdSum [(0 : ℚ), 1] [(0 : ℚ), 1] = 1/2 := by
      norm_num [devProdSum, listMean, List.zipWith]
    have hd2 : devProdSum [(1 : ℚ), 0] [(1 : ℚ), 0] = 1/2 := by
      norm_num [devProdSum, listMean, List.zipWith]
    rw [histCorrelation, hd, hd1, hd2]
    push_cast
    rw [Real.sqrt_mul_self (by norm_num : (0 : ℝ) ≤ 1/2)]
    norm_num
  have harr : returnHistogramComparisonArray libC cv2CompareHist stC 0 "correlation" =
      Except.ok [(1 : ℝ), -1] := by
    show comparisonLoop cv2CompareHist (imagePipelineHist libC stC 0) "correlation"
      stC.model_list = Except.ok [(1 : ℝ), -1]
    have hq : imagePipelineHist libC stC 0 = [(0 : ℚ), 1] := by
      simp [imagePipelineHist, libC, stC]
    rw [hq]
    simp [stC, comparisonLoop, returnHistogramComparison, cv2CompareHist, hA, hB]
  refine ⟨harr, by norm_num, ?_, by norm_num⟩
  simp [returnHistogramComparisonProbability, harr]
